import Mathlib

/-
Verification of the pybhf grid/axis/filter layer (src/pybhf/grid.py and
src/pybhf/filter.py).  Python floats are modelled as exact rationals,
Python `int()` as truncation toward zero, numpy arrays as functions held in
a reference store (so that aliasing and defensive copying are observable),
and Python exceptions as an explicit error type.

The rational arithmetic used inside the executable definitions is written
with `Rat.divInt` on numerators and denominators (`pyAdd`, `pySub`, `pyMul`,
`pyDiv`, `pyAbs`); each is proved equal to the corresponding field operation
on `ℚ`, so symbolic proofs can use ordinary algebra while concrete runs
reduce inside the kernel.
-/

namespace PyBHF

/-- Addition on `ℚ` via numerators and denominators. -/
def pyAdd (a b : ℚ) : ℚ := Rat.divInt (a.num * b.den + b.num * a.den) (a.den * b.den)

/-- Subtraction on `ℚ` via numerators and denominators. -/
def pySub (a b : ℚ) : ℚ := Rat.divInt (a.num * b.den - b.num * a.den) (a.den * b.den)

/-- Multiplication on `ℚ` via numerators and denominators. -/
def pyMul (a b : ℚ) : ℚ := Rat.divInt (a.num * b.num) (a.den * b.den)

/-- Division on `ℚ` via numerators and denominators (division by zero gives zero,
as for the field division of `ℚ`). -/
def pyDiv (a b : ℚ) : ℚ := Rat.divInt (a.num * b.den) (a.den * b.num)

/-- Absolute value on `ℚ`. -/
def pyAbs (a : ℚ) : ℚ := Rat.divInt (a.num.natAbs : ℤ) (a.den : ℤ)

/-- Python `int()` applied to a float: truncation toward zero. -/
def pyInt (q : ℚ) : ℤ := q.num.tdiv q.den

/-- The Python exception kinds the library can raise. -/
inductive PyErr where
  | typeError (msg : String)
  | valueError (msg : String)
  | indexError (msg : String)
  | attributeError (msg : String)
  | runtimeError (msg : String)
deriving DecidableEq, Repr

instance exceptDecEq {ε α : Type} [DecidableEq ε] [DecidableEq α] :
    DecidableEq (Except ε α) := fun
  | .error e, .error f =>
    match decEq e f with
    | isTrue h => isTrue (h ▸ rfl)
    | isFalse h => isFalse fun c => h (Except.error.inj c)
  | .error _, .ok _ => isFalse fun c => Except.noConfusion c
  | .ok _, .error _ => isFalse fun c => Except.noConfusion c
  | .ok a, .ok b =>
    match decEq a b with
    | isTrue h => isTrue (h ▸ rfl)
    | isFalse h => isFalse fun c => h (Except.ok.inj c)

/-- Projection of an `Except` result to its error, if any. -/
def errOf {α : Type} : Except PyErr α → Option PyErr
  | .error e => some e
  | .ok _ => none

/-- Projection of an `Except` result to its value, if any. -/
def okOf {α : Type} : Except PyErr α → Option α
  | .error _ => none
  | .ok a => some a

/-- True exactly when the result is a raised `TypeError`. -/
def isTypeError {α : Type} : Except PyErr α → Bool
  | .error (.typeError _) => true
  | _ => false

/-- GridAxis dataclass fields: name, min, max, size, epsilon
(grid.py lines 25-31). -/
structure GridAxis where
  name : String
  min : ℚ
  max : ℚ
  size : ℚ
  epsilon : ℚ
deriving DecidableEq, Repr

/-- The dataclass default for `epsilon` (grid.py line 31). -/
def defaultEpsilon : ℚ := Rat.divInt 1 1000000

/-- The conditions enforced by `GridAxis.__post_init__` (grid.py lines 33-41). -/
def GridAxis.Valid (a : GridAxis) : Prop :=
  a.name ≠ "" ∧ a.min < a.max ∧ 0 < a.size ∧ 0 < a.epsilon

instance (a : GridAxis) : Decidable a.Valid := by
  unfold GridAxis.Valid
  infer_instance

/-- `GridAxis(...)` construction including `__post_init__` validation
(grid.py lines 25-41). -/
def GridAxis.make (n : String) (mn mx sz eps : ℚ) : Except PyErr GridAxis :=
  if n = "" then .error (.valueError "name cannot be empty.")
  else if mx ≤ mn then .error (.valueError "min must be less than max.")
  else if sz ≤ 0 then .error (.valueError "size must be greater than zero.")
  else if eps ≤ 0 then .error (.valueError "epsilon must be greater than zero.")
  else .ok ⟨n, mn, mx, sz, eps⟩

/-- `GridAxis._half_size` (grid.py lines 43-45). -/
def GridAxis.half_size (a : GridAxis) : ℚ := pyDiv a.size 2

/-- `GridAxis.n_bins = int((max - min) / size)` (grid.py lines 47-49). -/
def GridAxis.n_bins (a : GridAxis) : ℤ := pyInt (pyDiv (pySub a.max a.min) a.size)

/-- `GridAxis._is_valid_key` (grid.py lines 51-52). -/
def GridAxis.is_valid_key (a : GridAxis) (key : ℚ) : Bool :=
  decide (a.min ≤ key ∧ key ≤ a.max)

/-- `GridAxis._is_valid_index` (grid.py lines 54-55). -/
def GridAxis.is_valid_index (a : GridAxis) (index : ℤ) : Bool :=
  decide (0 ≤ index ∧ index < a.n_bins)

/-- `GridAxis.copy`: rebuilds the axis from its four defining parameters,
leaving `epsilon` at the dataclass default (grid.py lines 57-58).
Constructing the copy re-runs `__post_init__`. -/
def GridAxis.copy (a : GridAxis) : Except PyErr GridAxis :=
  GridAxis.make a.name a.min a.max a.size defaultEpsilon

/-- `GridAxis.get_index` (grid.py lines 60-67). -/
def GridAxis.get_index (a : GridAxis) (key : ℚ) : Except PyErr ℤ :=
  if ¬ a.is_valid_key key then
    .error (.indexError (a.name ++ "-axis key is out-of-bounds."))
  else
    let index : ℚ :=
      if key < a.max then pyDiv (pySub key a.min) a.size else pySub (a.n_bins : ℚ) 1
    .ok (pyInt (pyAdd index a.epsilon))

/-- `GridAxis.get_key` (grid.py lines 69-74). -/
def GridAxis.get_key (a : GridAxis) (index : ℤ) : Except PyErr ℚ :=
  if ¬ a.is_valid_index index then
    .error (.indexError (a.name ++ "-axis index is out-of-bounds."))
  else
    .ok (pyAdd (pyAdd (pyMul (index : ℚ) a.size) a.min) a.half_size)

/-- `GridAxis.__eq__`: compares name, min, max and size only
(grid.py lines 76-83). -/
def axisEq (a b : GridAxis) : Bool :=
  (a.name == b.name) && decide (a.min = b.min) && decide (a.max = b.max)
    && decide (a.size = b.size)

/-- A dynamically typed argument handed to `Grid.__init__`: a real `GridAxis`
instance, a non-axis object that supports a `copy()` method (returning some
object), or a non-axis object without a `copy` attribute. -/
inductive PyArg where
  | axis (a : GridAxis)
  | withCopy (res : PyArg)
  | plain
deriving DecidableEq

/-- Whether a value is an instance of the `GridAxis` class. -/
def PyArg.isAxis : PyArg → Bool
  | .axis _ => true
  | _ => false

/-- Evaluating `arg.copy()` on a constructor argument: a `GridAxis` rebuilds
itself through the dataclass constructor, an object with a `copy` method
returns that method's result, and an object without one raises
`AttributeError`. -/
def PyArg.copyRes : PyArg → Except PyErr PyArg
  | .axis a => (a.copy).map .axis
  | .withCopy r => .ok r
  | .plain => .error (.attributeError "object has no attribute copy")

/-- A 2-D numpy matrix (used for the noise models). -/
structure Mat where
  rows : ℕ
  cols : ℕ
  entry : ℕ → ℕ → ℚ

/-- Sum of a list of rationals, written with `pyAdd`. -/
def pySum (l : List ℚ) : ℚ := l.foldr pyAdd 0

/-- `np.sum` over all entries of a matrix. -/
def Mat.total (m : Mat) : ℚ :=
  pySum ((List.range m.rows).map fun i =>
    pySum ((List.range m.cols).map fun j => m.entry i j))

/-- The 1x1 matrix `[[1.0]]`. -/
def onesMat : Mat := ⟨1, 1, fun _ _ => 1⟩

/-- The mutable heap: numpy arrays owned by grids, the nonzero-cell sets,
and noise matrices, all addressed by references; `next` is the next fresh
reference. -/
structure Store where
  arr : ℕ → ℕ → ℕ → ℚ
  nz : ℕ → Finset (ℤ × ℤ)
  mats : ℕ → Mat
  next : ℕ

/-- The empty heap. -/
def store0 : Store := ⟨fun _ _ _ => 0, fun _ => ∅, fun _ => onesMat, 0⟩

/-- External mutation of a heap-held matrix (models the caller writing into
an ndarray it still owns). -/
def storeSetMat (σ : Store) (r : ℕ) (m : Mat) : Store :=
  { σ with mats := Function.update σ.mats r m }

/-- A `Grid` object: the two internally held axes, the zero threshold, the
significant-digit count, and references to its numpy array and its
nonzero-cell set (grid.py lines 89-112). -/
structure GridObj where
  x_axis : GridAxis
  y_axis : GridAxis
  zero_threshold : ℚ
  sig_digits : ℕ
  dataRef : ℕ
  nzRef : ℕ
deriving DecidableEq, Repr

/-- Number of rows of the dense array, `y_axis.n_bins` (grid.py line 108). -/
def GridObj.rows (g : GridObj) : ℕ := g.y_axis.n_bins.toNat

/-- Number of columns of the dense array, `x_axis.n_bins` (grid.py line 108). -/
def GridObj.cols (g : GridObj) : ℕ := g.x_axis.n_bins.toNat

/-- The part of `Grid.__init__` after both arguments passed the
`isinstance` check: validates distinct names and a non-negative threshold,
then allocates the zero-filled array and the empty nonzero set at fresh
references (grid.py lines 99-112). -/
def gridInitAxes (σ : Store) (xa ya : GridAxis) (thr : ℚ) :
    Except PyErr (GridObj × Store) :=
  if xa.name = ya.name then
    .error (.valueError "axis0.name == axis1.name!")
  else if thr < 0 then
    .error (.valueError "zero threshold must be at least zero.")
  else if ya.n_bins < 0 ∨ xa.n_bins < 0 then
    .error (.valueError "negative dimensions are not allowed")
  else
    .ok (⟨xa, ya, thr, 8, σ.next, σ.next + 1⟩,
      { arr := Function.update σ.arr σ.next fun _ _ => 0,
        nz := Function.update σ.nz (σ.next + 1) ∅,
        mats := σ.mats,
        next := σ.next + 2 })

/-- `Grid.__init__` (grid.py lines 90-112): copies the axis arguments,
checks their types, then proceeds with `gridInitAxes` on the copies. -/
def gridInit (σ : Store) (xArg yArg : PyArg) (thr : ℚ) :
    Except PyErr (GridObj × Store) := do
  let xc ← xArg.copyRes
  let yc ← yArg.copyRes
  match xc, yc with
  | .axis xa, .axis ya => gridInitAxes σ xa ya thr
  | _, _ => .error (.typeError "axis0 and axis1 must be type AxisSpecs.")

/-- numpy integer index resolution along one dimension of length `dim`:
negative indices wrap once, anything else out of `[-dim, dim)` is an error. -/
def npResolve (dim : ℕ) (i : ℤ) : Option ℕ :=
  if 0 ≤ i ∧ i < (dim : ℤ) then some i.toNat
  else if -(dim : ℤ) ≤ i ∧ i < 0 then some (i + dim).toNat
  else none

/-- `Grid._get_grid_index` (grid.py lines 154-159): converts an
`(x_key, y_key)` pair to a `(row, col)` index pair. -/
def GridObj.getGridIndex (g : GridObj) (key : ℚ × ℚ) : Except PyErr (ℤ × ℤ) := do
  let xi ← g.x_axis.get_index key.1
  let yi ← g.y_axis.get_index key.2
  return (yi, xi)

/-- `Grid.__getitem__` (grid.py lines 141-143), including the numpy bounds
check on the resulting indices. -/
def GridObj.getItem (σ : Store) (g : GridObj) (key : ℚ × ℚ) : Except PyErr ℚ := do
  let idx ← g.getGridIndex key
  match npResolve g.rows idx.1, npResolve g.cols idx.2 with
  | some r, some c => return σ.arr g.dataRef r c
  | _, _ => .error (.indexError "index is out of bounds")

/-- Pointwise update of a 2-D array value. -/
def setAt (f : ℕ → ℕ → ℚ) (r c : ℕ) (v : ℚ) : ℕ → ℕ → ℚ :=
  fun r' c' => if r' = r ∧ c' = c then v else f r' c'

/-- `Grid.__setitem__` (grid.py lines 145-152).  Returns the post-state and
the raised error, if any: the nonzero set is mutated before the array write,
so an out-of-bounds index raised by numpy leaves the set mutation in place. -/
def GridObj.setItem (σ : Store) (g : GridObj) (key : ℚ × ℚ) (value : ℚ) :
    Store × Option PyErr :=
  match g.getGridIndex key with
  | .error e => (σ, some e)
  | .ok idx =>
    let σ₁ : Store :=
      if g.zero_threshold ≤ value then
        { σ with nz := Function.update σ.nz g.nzRef (insert idx (σ.nz g.nzRef)) }
      else
        { σ with nz := Function.update σ.nz g.nzRef ((σ.nz g.nzRef).erase idx) }
    let stored : ℚ := if g.zero_threshold ≤ value then value else 0
    match npResolve g.rows idx.1, npResolve g.cols idx.2 with
    | some r, some c =>
      ({ σ₁ with
          arr := Function.update σ₁.arr g.dataRef (setAt (σ₁.arr g.dataRef) r c stored) },
        none)
    | _, _ => (σ₁, some (.indexError "index is out of bounds"))

/-- `Grid.get_cell_key` (grid.py lines 168-173): converts a `(row, col)`
index pair back to an `(x_key, y_key)` pair of bin centers. -/
def GridObj.getCellKey (g : GridObj) (idx : ℤ × ℤ) : Except PyErr (ℚ × ℚ) := do
  let yk ← g.y_axis.get_key idx.1
  let xk ← g.x_axis.get_key idx.2
  return (xk, yk)

/-- A fixed enumeration order for cell index pairs (Python `set` iteration
order is arbitrary; the model fixes a lexicographic one). -/
def cellLe (p q : ℤ × ℤ) : Prop := p.1 < q.1 ∨ (p.1 = q.1 ∧ p.2 ≤ q.2)

instance : DecidableRel cellLe := fun p q => by
  unfold cellLe
  infer_instance

instance : IsTrans (ℤ × ℤ) cellLe where
  trans p q r hpq hqr := by
    rcases hpq with h | ⟨e, h⟩ <;> rcases hqr with h' | ⟨e', h'⟩
    · exact Or.inl (h.trans h')
    · exact Or.inl (e' ▸ h)
    · exact Or.inl (e ▸ h')
    · exact Or.inr ⟨e.trans e', h.trans h'⟩

instance : IsAntisymm (ℤ × ℤ) cellLe where
  antisymm p q hpq hqp := by
    rcases hpq with h | ⟨e, h⟩ <;> rcases hqp with h' | ⟨e', h'⟩
    · exact absurd (h.trans h') (lt_irrefl _)
    · exact absurd h (e' ▸ lt_irrefl _)
    · exact absurd h' (e ▸ lt_irrefl _)
    · exact Prod.ext e (le_antisymm h h')

instance : IsTotal (ℤ × ℤ) cellLe where
  total p q := by
    rcases lt_trichotomy p.1 q.1 with h | h | h
    · exact Or.inl (Or.inl h)
    · rcases le_total p.2 q.2 with h' | h'
      · exact Or.inl (Or.inr ⟨h, h'⟩)
      · exact Or.inr (Or.inr ⟨h.symm, h'⟩)
    · exact Or.inr (Or.inl h)

/-- Enumerate a multiset of cells in ascending `cellLe` order
(kernel-computable insertion sort, well defined on permutation classes). -/
def cellSort (m : Multiset (ℤ × ℤ)) : List (ℤ × ℤ) :=
  Quot.liftOn m (List.insertionSort cellLe) fun l l' p =>
    List.eq_of_perm_of_sorted
      ((List.perm_insertionSort cellLe l).trans
        (p.trans (List.perm_insertionSort cellLe l').symm))
      (List.sorted_insertionSort cellLe l)
      (List.sorted_insertionSort cellLe l')

/-- `Grid.get_nonzero_cells` (grid.py lines 175-176), as a list in the
model's fixed enumeration order. -/
def GridObj.getNonzeroCells (σ : Store) (g : GridObj) : List (ℤ × ℤ) :=
  cellSort (σ.nz g.nzRef).val

/-- `Grid.get_nonzero_keys` (grid.py lines 178-179). -/
def GridObj.getNonzeroKeys (σ : Store) (g : GridObj) : Except PyErr (List (ℚ × ℚ)) :=
  (g.getNonzeroCells σ).mapM g.getCellKey

/-- `Grid.copy` (grid.py lines 161-166): constructs a fresh grid from the
held axes and threshold, then overwrites the fresh grid's significant
digits, nonzero set (a copied set) and array contents (an elementwise copy). -/
def GridObj.copy (σ : Store) (g : GridObj) : Except PyErr (GridObj × Store) := do
  let (g₀, σ₁) ← gridInit σ (.axis g.x_axis) (.axis g.y_axis) g.zero_threshold
  let gc := { g₀ with sig_digits := g.sig_digits }
  let σ₂ :=
    { σ₁ with
        nz := Function.update σ₁.nz gc.nzRef (σ.nz g.nzRef),
        arr := Function.update σ₁.arr gc.dataRef (σ.arr g.dataRef) }
  return (gc, σ₂)

/-- `np.allclose` on two arrays of the given common shape
(absolute tolerance `1e-8`, relative tolerance `1e-5`). -/
def allcloseB (rows cols : ℕ) (a b : ℕ → ℕ → ℚ) : Bool :=
  (List.range rows).all fun r =>
    (List.range cols).all fun c =>
      decide (pyAbs (pySub (a r c) (b r c)) ≤
        pyAdd (Rat.divInt 1 100000000) (pyMul (Rat.divInt 1 100000) (pyAbs (b r c))))

/-- `Grid.__eq__` (grid.py lines 131-139), including its literal final
conjunct `self._nonzero_cells == self._nonzero_cells`. -/
def gridEqB (σ : Store) (g o : GridObj) : Bool :=
  axisEq g.x_axis o.x_axis && axisEq g.y_axis o.y_axis
    && decide (g.zero_threshold = o.zero_threshold)
    && allcloseB g.rows g.cols (σ.arr g.dataRef) (σ.arr o.dataRef)
    && (g.sig_digits == o.sig_digits)
    && decide (σ.nz g.nzRef = σ.nz g.nzRef)

/-- A `HistogramFilterBase` object: its belief grid and references to the
stored motion and observation noise matrices (`none` before a setter has
run) (filter.py lines 9-28). -/
structure FilterObj where
  grid : GridObj
  motionRef : Option ℕ
  observRef : Option ℕ
deriving DecidableEq

/-- `HistogramFilterBase._is_valid_noise` (filter.py lines 58-65): the
matrix must be square and its entries must sum to exactly 1. -/
def is_valid_noise (m : Mat) : Bool :=
  (m.rows == m.cols) && decide (m.total = 1)

/-- `HistogramFilterBase.set_motion_noise` (filter.py lines 84-89): `None`
falls back to `[[1.0]]`; an invalid matrix raises `ValueError` before any
state change; a valid one is stored as a private copy at a fresh reference. -/
def setMotionNoise (σ : Store) (f : FilterObj) (noise : Option Mat) :
    Except PyErr (FilterObj × Store) :=
  let m := noise.getD onesMat
  if ¬ is_valid_noise m then
    .error (.valueError "motion noise must be a square matrix that sums to 1.")
  else
    .ok ({ f with motionRef := some σ.next },
      { σ with mats := Function.update σ.mats σ.next m, next := σ.next + 1 })

/-- `HistogramFilterBase.set_observation_noise` (filter.py lines 91-98). -/
def setObservationNoise (σ : Store) (f : FilterObj) (noise : Option Mat) :
    Except PyErr (FilterObj × Store) :=
  let m := noise.getD onesMat
  if ¬ is_valid_noise m then
    .error (.valueError "observation noise must be a square matrix that sums to 1.")
  else
    .ok ({ f with observRef := some σ.next },
      { σ with mats := Function.update σ.mats σ.next m, next := σ.next + 1 })

/-- `HistogramFilterBase.__init__` (filter.py lines 10-28): builds the
belief grid (the unusable-cells hook is a no-op), then sets both noise
matrices. -/
def filterInit (σ : Store) (xArg yArg : PyArg) (thr : ℚ)
    (motion observ : Option Mat) : Except PyErr (FilterObj × Store) := do
  let (g, σ₁) ← gridInit σ xArg yArg thr
  let f₀ : FilterObj := ⟨g, none, none⟩
  let (f₁, σ₂) ← setMotionNoise σ₁ f₀ motion
  let (f₂, σ₃) ← setObservationNoise σ₂ f₁ observ
  return (f₂, σ₃)

/-- `HistogramFilterBase.sample` (filter.py lines 67-82).  The pseudo-random
generator is abstracted by `pick`: draw `i` selects entry
`pick i mod keys.length` of the nonzero-key list.  Mirrors the source's
order of checks: collect the nonzero keys (propagating index errors),
raise on an empty collection, read each weight, raise when the weights do
not sum to exactly 1, then draw `n` samples with replacement. -/
def FilterObj.sample (σ : Store) (f : FilterObj) (n : ℕ) (pick : ℕ → ℕ) :
    Except PyErr (List (ℚ × ℚ)) := do
  let keys ← f.grid.getNonzeroKeys σ
  if keys.length = 0 then
    .error (.runtimeError "There are no cells with positive values!")
  else do
    let probs ← keys.mapM (f.grid.getItem σ)
    if pySum probs ≠ 1 then
      .error (.runtimeError "The probabilities for the nonzero keys do not sum to 1.")
    else if probs.any fun p => decide (p < 0) then
      .error (.valueError "probabilities are not non-negative")
    else
      .ok ((List.range n).map fun i => keys.getD (pick i % keys.length) (0, 0))

/-- Apply a sequence of `write(key, value)` operations to a grid, returning
the final heap and whether every write completed without raising. -/
def applyWrites (σ : Store) (g : GridObj) : List ((ℚ × ℚ) × ℚ) → Store × Bool
  | [] => (σ, true)
  | w :: ws =>
    let step := g.setItem σ w.1 w.2
    let rest := applyWrites step.1 g ws
    (rest.1, step.2.isNone && rest.2)

/-- The nonzero-set invariant of a grid state: the nonzero-cell set holds
exactly the index pairs of array cells whose value is at least the zero
threshold, and holds only in-range index pairs. -/
def GridInv (σ : Store) (g : GridObj) : Prop :=
  (∀ r < g.rows, ∀ c < g.cols,
    (((r : ℤ), (c : ℤ)) ∈ σ.nz g.nzRef ↔ g.zero_threshold ≤ σ.arr g.dataRef r c))
  ∧ ∀ p ∈ σ.nz g.nzRef,
      0 ≤ p.1 ∧ p.1 < (g.rows : ℤ) ∧ 0 ≤ p.2 ∧ p.2 < (g.cols : ℤ)

instance (σ : Store) (g : GridObj) : Decidable (GridInv σ g) := by
  unfold GridInv
  infer_instance

/-- The bin-center key of a cell index pair `(row, col)`: the value
`get_cell_key` returns when both indices are valid. -/
def GridObj.cellCenter (g : GridObj) (p : ℤ × ℤ) : ℚ × ℚ :=
  (pyAdd (pyAdd (pyMul (p.2 : ℚ) g.x_axis.size) g.x_axis.min) g.x_axis.half_size,
   pyAdd (pyAdd (pyMul (p.1 : ℚ) g.y_axis.size) g.y_axis.min) g.y_axis.half_size)

/-- The sum of the stored values at a grid's nonzero cells. -/
def weightSum (σ : Store) (g : GridObj) : ℚ :=
  pySum ((g.getNonzeroCells σ).map fun p => σ.arr g.dataRef p.1.toNat p.2.toNat)

/-! Concrete objects used to instantiate the claims. -/

/-- An x-axis over `[0, 1]` with bin width `0.5`. -/
def axA : GridAxis := ⟨"x", 0, 1, Rat.divInt 1 2, defaultEpsilon⟩

/-- A y-axis over `[0, 1]` with bin width `0.5`. -/
def axB : GridAxis := ⟨"y", 0, 1, Rat.divInt 1 2, defaultEpsilon⟩

/-- An x-axis over `[0, 1]` with bin width `1` (a single bin). -/
def axU : GridAxis := ⟨"x", 0, 1, 1, defaultEpsilon⟩

/-- A y-axis over `[0, 1]` with bin width `1` (a single bin). -/
def axV : GridAxis := ⟨"y", 0, 1, 1, defaultEpsilon⟩

/-- A validly constructed axis whose epsilon is `0.6`. -/
def axBigEps : GridAxis := ⟨"x", 0, 1, Rat.divInt 1 2, Rat.divInt 3 5⟩

/-- An x-axis over `[0, 1]` with bin width `0.3` (the width does not divide
the range). -/
def axX3 : GridAxis := ⟨"x", 0, 1, Rat.divInt 3 10, defaultEpsilon⟩

/-- A y-axis over `[0, 1]` with bin width `0.3`. -/
def axY3 : GridAxis := ⟨"y", 0, 1, Rat.divInt 3 10, defaultEpsilon⟩

/-- An x-axis over `[0, 1]` with bin width `0.1`. -/
def axTen : GridAxis := ⟨"x", 0, 1, Rat.divInt 1 10, defaultEpsilon⟩

/-- Extract the grid and heap of a successful construction (dummy fallback
on the error side, used only where construction provably succeeds). -/
def gridOf (r : Except PyErr (GridObj × Store)) : GridObj × Store :=
  match r with
  | .ok p => p
  | .error _ => (⟨axU, axV, 0, 8, 0, 1⟩, store0)

/-- Extract the filter and heap of a successful construction. -/
def filterOf (r : Except PyErr (FilterObj × Store)) : FilterObj × Store :=
  match r with
  | .ok p => p
  | .error _ => (⟨⟨axU, axV, 0, 8, 0, 1⟩, none, none⟩, store0)

/-- A 1x1 grid constructed with zero threshold `0`. -/
def c1Pair : GridObj × Store := gridOf (gridInit store0 (.axis axU) (.axis axV) 0)

/-- A 2x2 grid with zero threshold `0.01`. -/
def gA : GridObj × Store :=
  gridOf (gridInit store0 (.axis axA) (.axis axB) (Rat.divInt 1 100))

/-- A write sequence: store `0.5` at `(0.25, 0.75)`, then overwrite the
same cell with the sub-threshold value `0.001`. -/
def wSeq : List ((ℚ × ℚ) × ℚ) :=
  [((Rat.divInt 1 4, Rat.divInt 3 4), Rat.divInt 1 2),
   ((Rat.divInt 1 4, Rat.divInt 3 4), Rat.divInt 1 1000)]

/-- A 3x3 grid on the width-`0.3` axes with the default threshold. -/
def g3 : GridObj × Store :=
  gridOf (gridInit store0 (.axis axX3) (.axis axY3) (Rat.divInt 1 100000))

/-- The write `grid[(0.99, 0.15)] = 0.5` on `g3`: the key is in range on
both axes but the x index comes out as `3 = n_bins`. -/
def w3 : Store × Option PyErr :=
  g3.1.setItem g3.2 (Rat.divInt 99 100, Rat.divInt 15 100) (Rat.divInt 1 2)

/-- A filter over the width-`0.5` axes with default threshold and noise. -/
def fA : FilterObj × Store :=
  filterOf (filterInit store0 (.axis axA) (.axis axB) (Rat.divInt 1 100000) none none)

/-- Belief write `filter[(0.05, 0.05)] = 0.7` on `fA`. -/
def fw1 : Store × Option PyErr :=
  fA.1.grid.setItem fA.2 (Rat.divInt 5 100, Rat.divInt 5 100) (Rat.divInt 7 10)

/-- Belief write `filter[(0.2, 0.8)] = 0.3` after `fw1`. -/
def fw2 : Store × Option PyErr :=
  fA.1.grid.setItem fw1.1 (Rat.divInt 2 10, Rat.divInt 8 10) (Rat.divInt 3 10)

/-- A square noise matrix summing to `1`. -/
def goodMat : Mat := ⟨2, 2, fun _ _ => Rat.divInt 1 4⟩

/-- A non-square noise matrix (summing to `1`). -/
def badMat : Mat := ⟨2, 3, fun _ _ => Rat.divInt 1 6⟩

/-- A square noise matrix summing to `1.002`. -/
def offMat : Mat := ⟨1, 1, fun _ _ => Rat.divInt 1002 1000⟩

/-- A heap holding two grids that differ only in their nonzero sets. -/
def c9Store : Store :=
  ⟨fun _ _ _ => 0, fun r => if r = 1 then {((0 : ℤ), (0 : ℤ))} else ∅, fun _ => onesMat, 4⟩

/-- First grid in `c9Store`: empty nonzero set. -/
def c9g1 : GridObj := ⟨axU, axV, 0, 8, 2, 0⟩

/-- Second grid in `c9Store`: nonzero set `{(0, 0)}`, same array contents. -/
def c9g2 : GridObj := ⟨axU, axV, 0, 8, 3, 1⟩

/-! Basic lemmas about the arithmetic layer. -/

theorem pyAdd_eq (a b : ℚ) : pyAdd a b = a + b := by
  have ha : ((a.den : ℚ)) ≠ 0 := by exact_mod_cast a.den_nz
  have hb : ((b.den : ℚ)) ≠ 0 := by exact_mod_cast b.den_nz
  rw [pyAdd, Rat.divInt_eq_div]
  push_cast
  conv_rhs => rw [← Rat.num_div_den a, ← Rat.num_div_den b]
  field_simp

theorem pySub_eq (a b : ℚ) : pySub a b = a - b := by
  have ha : ((a.den : ℚ)) ≠ 0 := by exact_mod_cast a.den_nz
  have hb : ((b.den : ℚ)) ≠ 0 := by exact_mod_cast b.den_nz
  rw [pySub, Rat.divInt_eq_div]
  push_cast
  conv_rhs => rw [← Rat.num_div_den a, ← Rat.num_div_den b]
  field_simp
  ring

theorem pyMul_eq (a b : ℚ) : pyMul a b = a * b := by
  have ha : ((a.den : ℚ)) ≠ 0 := by exact_mod_cast a.den_nz
  have hb : ((b.den : ℚ)) ≠ 0 := by exact_mod_cast b.den_nz
  rw [pyMul, Rat.divInt_eq_div]
  push_cast
  conv_rhs => rw [← Rat.num_div_den a, ← Rat.num_div_den b]
  field_simp

theorem pyDiv_eq (a b : ℚ) : pyDiv a b = a / b := by
  rcases eq_or_ne b 0 with rfl | hb
  · simp [pyDiv, Rat.divInt_eq_div]
  · have ha : ((a.den : ℚ)) ≠ 0 := by exact_mod_cast a.den_nz
    have hbd : ((b.den : ℚ)) ≠ 0 := by exact_mod_cast b.den_nz
    have hbn : ((b.num : ℚ)) ≠ 0 := by exact_mod_cast Rat.num_ne_zero.mpr hb
    rw [pyDiv, Rat.divInt_eq_div]
    push_cast
    conv_rhs => rw [← Rat.num_div_den a, ← Rat.num_div_den b]
    field_simp

theorem pyAbs_eq (a : ℚ) : pyAbs a = |a| := by
  rcases le_or_lt 0 a with h | h
  · rw [abs_of_nonneg h, pyAbs]
    rw [Int.natAbs_of_nonneg (Rat.num_nonneg.mpr h), Rat.divInt_eq_div]
    push_cast
    exact Rat.num_div_den a
  · rw [abs_of_neg h, pyAbs]
    have hnum : (a.num.natAbs : ℤ) = -a.num :=
      Int.ofNat_natAbs_of_nonpos (Rat.num_nonpos.mpr h.le)
    rw [hnum, Rat.divInt_eq_div]
    push_cast
    rw [neg_div, Rat.num_div_den]

theorem pyInt_eq_floor {q : ℚ} (h : 0 ≤ q) : pyInt q = ⌊q⌋ := by
  rw [pyInt, Rat.floor_def]
  exact Int.tdiv_eq_ediv (Rat.num_nonneg.mpr h) (Int.natCast_nonneg q.den)

theorem pySum_eq (l : List ℚ) : pySum l = l.sum := by
  induction l with
  | nil => rfl
  | cons a l ih => simp [pySum, List.foldr_cons, pyAdd_eq, List.sum_cons] at ih ⊢; rw [ih]

theorem mem_cellSort {m : Multiset (ℤ × ℤ)} {a : ℤ × ℤ} :
    a ∈ cellSort m ↔ a ∈ m := by
  induction m using Quot.inductionOn with
  | h l => exact ⟨fun h => (List.perm_insertionSort cellLe l).mem_iff.mp h,
      fun h => (List.perm_insertionSort cellLe l).mem_iff.mpr h⟩

theorem length_cellSort (m : Multiset (ℤ × ℤ)) :
    (cellSort m).length = Multiset.card m := by
  induction m using Quot.inductionOn with
  | h l => exact (List.perm_insertionSort cellLe l).length_eq


theorem exbind_ok {α β : Type} (a : α) (f : α → Except PyErr β) :
    (Except.ok a >>= f) = f a := rfl

theorem exbind_error {α β : Type} (e : PyErr) (f : α → Except PyErr β) :
    ((Except.error e : Except PyErr α) >>= f) = Except.error e := rfl

theorem exmap_ok {α β : Type} (f : α → β) (a : α) :
    Except.map f (Except.ok a : Except PyErr α) = Except.ok (f a) := rfl

theorem exmap_error {α β : Type} (f : α → β) (e : PyErr) :
    Except.map f (Except.error e : Except PyErr α) = Except.error e := rfl

theorem make_ok {n : String} {mn mx sz eps : ℚ} {c : GridAxis}
    (h : GridAxis.make n mn mx sz eps = .ok c) : c = ⟨n, mn, mx, sz, eps⟩ := by
  rw [GridAxis.make] at h
  split_ifs at h
  exact (Except.ok.inj h).symm

theorem axis_copy_ok {a : GridAxis} (hv : a.Valid) :
    a.copy = .ok ⟨a.name, a.min, a.max, a.size, defaultEpsilon⟩ := by
  obtain ⟨hn, hlt, hs, -⟩ := hv
  rw [GridAxis.copy, GridAxis.make, if_neg hn, if_neg (not_le.mpr hlt),
    if_neg (not_le.mpr hs), if_neg (by decide : ¬ defaultEpsilon ≤ 0)]

theorem make_ok_inv {n : String} {mn mx sz eps : ℚ} {c : GridAxis}
    (h : GridAxis.make n mn mx sz eps = .ok c) :
    c = ⟨n, mn, mx, sz, eps⟩ ∧ n ≠ "" ∧ mn < mx ∧ 0 < sz ∧ 0 < eps := by
  rw [GridAxis.make] at h
  split_ifs at h with h1 h2 h3 h4
  exact ⟨(Except.ok.inj h).symm, h1, not_le.mp h2, not_le.mp h3, not_le.mp h4⟩

theorem pyInt_eq_of {q : ℚ} {z : ℤ} (hz : 0 ≤ z) (h1 : (z : ℚ) ≤ q) (h2 : q < z + 1) :
    pyInt q = z := by
  have hq : 0 ≤ q := le_trans (by exact_mod_cast hz) h1
  rw [pyInt_eq_floor hq]
  exact Int.floor_eq_iff.mpr ⟨h1, h2⟩

theorem n_bins_nonneg {a : GridAxis} (hv : a.Valid) : 0 ≤ a.n_bins := by
  have hq : 0 ≤ (a.max - a.min) / a.size :=
    le_of_lt (div_pos (sub_pos.mpr hv.2.1) hv.2.2.1)
  rw [GridAxis.n_bins, pyDiv_eq, pySub_eq, pyInt_eq_floor hq]
  exact Int.floor_nonneg.mpr hq

theorem n_bins_le_ratio {a : GridAxis} (hv : a.Valid) :
    (a.n_bins : ℚ) ≤ (a.max - a.min) / a.size := by
  have hq : 0 ≤ (a.max - a.min) / a.size :=
    le_of_lt (div_pos (sub_pos.mpr hv.2.1) hv.2.2.1)
  rw [GridAxis.n_bins, pyDiv_eq, pySub_eq, pyInt_eq_floor hq]
  exact Int.floor_le _

theorem axis_copy_valid {a : GridAxis} (hv : a.Valid) :
    GridAxis.Valid ⟨a.name, a.min, a.max, a.size, defaultEpsilon⟩ :=
  ⟨hv.1, hv.2.1, hv.2.2.1, show (0 : ℚ) < defaultEpsilon by decide⟩

/-- Successful construction: with valid axes, distinct names and a
non-negative threshold, `gridInit` returns the fully determined grid object
and heap. -/
theorem gridInit_ok (σ : Store) {x y : GridAxis} (thr : ℚ) (hvx : x.Valid)
    (hvy : y.Valid) (hname : x.name ≠ y.name) (hthr : 0 ≤ thr) :
    gridInit σ (.axis x) (.axis y) thr = .ok
      (⟨⟨x.name, x.min, x.max, x.size, defaultEpsilon⟩,
        ⟨y.name, y.min, y.max, y.size, defaultEpsilon⟩, thr, 8, σ.next, σ.next + 1⟩,
        { arr := Function.update σ.arr σ.next fun _ _ => 0,
          nz := Function.update σ.nz (σ.next + 1) ∅,
          mats := σ.mats,
          next := σ.next + 2 }) := by
  have hstep : gridInit σ (.axis x) (.axis y) thr
      = gridInitAxes σ ⟨x.name, x.min, x.max, x.size, defaultEpsilon⟩
          ⟨y.name, y.min, y.max, y.size, defaultEpsilon⟩ thr := by
    rw [gridInit, show (PyArg.axis x).copyRes = Except.map PyArg.axis x.copy from rfl,
      show (PyArg.axis y).copyRes = Except.map PyArg.axis y.copy from rfl,
      axis_copy_ok hvx, axis_copy_ok hvy, exmap_ok, exmap_ok, exbind_ok, exbind_ok]
  rw [hstep, gridInitAxes, if_neg hname, if_neg (not_lt.mpr hthr), if_neg]
  rintro (hneg | hneg)
  · exact absurd hneg (not_lt.mpr (n_bins_nonneg (axis_copy_valid hvy)))
  · exact absurd hneg (not_lt.mpr (n_bins_nonneg (axis_copy_valid hvx)))

/-- Inversion of a successful construction: the returned grid and heap are
fully determined, the copied axes are valid with the default epsilon, the
names differ, the threshold is non-negative and the axis bin counts are
non-negative. -/
theorem gridInit_ok_inv {σ : Store} {x y : GridAxis} {thr : ℚ} {g : GridObj}
    {σ' : Store} (h : gridInit σ (.axis x) (.axis y) thr = .ok (g, σ')) :
    g = ⟨⟨x.name, x.min, x.max, x.size, defaultEpsilon⟩,
        ⟨y.name, y.min, y.max, y.size, defaultEpsilon⟩, thr, 8, σ.next, σ.next + 1⟩
    ∧ σ' = { arr := Function.update σ.arr σ.next fun _ _ => 0,
             nz := Function.update σ.nz (σ.next + 1) ∅,
             mats := σ.mats,
             next := σ.next + 2 }
    ∧ GridAxis.Valid ⟨x.name, x.min, x.max, x.size, defaultEpsilon⟩
    ∧ GridAxis.Valid ⟨y.name, y.min, y.max, y.size, defaultEpsilon⟩
    ∧ x.name ≠ y.name ∧ 0 ≤ thr := by
  rw [gridInit, show (PyArg.axis x).copyRes = Except.map PyArg.axis x.copy from rfl,
    show (PyArg.axis y).copyRes = Except.map PyArg.axis y.copy from rfl] at h
  rcases hx : x.copy with e | xa
  · rw [hx, exmap_error, exbind_error] at h
    exact Except.noConfusion h
  rw [hx, exmap_ok, exbind_ok] at h
  rcases hy : y.copy with e | ya
  · rw [hy, exmap_error, exbind_error] at h
    exact Except.noConfusion h
  rw [hy, exmap_ok, exbind_ok] at h
  rw [GridAxis.copy] at hx hy
  obtain ⟨hxa, hnx, hmnx, hszx, -⟩ := make_ok_inv hx
  obtain ⟨hya, hny, hmny, hszy, -⟩ := make_ok_inv hy
  subst hxa
  subst hya
  change gridInitAxes σ ⟨x.name, x.min, x.max, x.size, defaultEpsilon⟩
    ⟨y.name, y.min, y.max, y.size, defaultEpsilon⟩ thr = .ok (g, σ') at h
  rw [gridInitAxes] at h
  split_ifs at h with h1 h2 h3
  obtain ⟨hg, hσ⟩ := Prod.mk.inj (Except.ok.inj h)
  exact ⟨hg.symm, hσ.symm, ⟨hnx, hmnx, hszx, show (0 : ℚ) < defaultEpsilon by decide⟩,
    ⟨hny, hmny, hszy, show (0 : ℚ) < defaultEpsilon by decide⟩, h1, not_lt.mp h2⟩

/-- The bin center of a valid index lies strictly inside the axis range,
and `get_index` maps it back to the same index whenever `epsilon < 1/2`. -/
theorem axis_roundtrip {a : GridAxis} (hv : a.Valid)
    (heps : a.epsilon < Rat.divInt 1 2) {i : ℤ} (h0 : 0 ≤ i) (hn : i < a.n_bins) :
    ∃ k, a.get_key i = .ok k ∧ a.min ≤ k ∧ k < a.max ∧ a.get_index k = .ok i := by
  have hs : 0 < a.size := hv.2.2.1
  have hsne : a.size ≠ 0 := ne_of_gt hs
  have he : 0 < a.epsilon := hv.2.2.2
  have heps' : a.epsilon < 1 / 2 := by rwa [Rat.divInt_eq_div] at heps
  have hi0 : (0 : ℚ) ≤ (i : ℚ) := by exact_mod_cast h0
  set K : ℚ := pyAdd (pyAdd (pyMul (i : ℚ) a.size) a.min) a.half_size with hKdef
  have hK : K = (i : ℚ) * a.size + a.min + a.size / 2 := by
    rw [hKdef, pyAdd_eq, pyAdd_eq, pyMul_eq, GridAxis.half_size, pyDiv_eq]
  have hmin : a.min ≤ K := by
    rw [hK]
    nlinarith [mul_nonneg hi0 hs.le, half_pos hs]
  have hmax : K < a.max := by
    have hr : (a.n_bins : ℚ) ≤ (a.max - a.min) / a.size := n_bins_le_ratio hv
    have hi1 : (i : ℚ) + 1 ≤ (a.n_bins : ℚ) := by exact_mod_cast Int.add_one_le_of_lt hn
    have hlt : (i : ℚ) + 1 / 2 < (a.max - a.min) / a.size := by linarith
    have := mul_lt_mul_of_pos_right hlt hs
    rw [div_mul_cancel₀ _ hsne] at this
    rw [hK]
    linarith
  have hvi : a.is_valid_index i = true := by
    rw [GridAxis.is_valid_index]
    exact decide_eq_true ⟨h0, hn⟩
  have hkey : a.get_key i = .ok K := by
    rw [GridAxis.get_key, hvi]
    simp
  have hvk : a.is_valid_key K = true := by
    rw [GridAxis.is_valid_key]
    exact decide_eq_true ⟨hmin, hmax.le⟩
  refine ⟨K, hkey, hmin, hmax, ?_⟩
  rw [GridAxis.get_index, hvk]
  simp only [Bool.true_eq_false, not_true_eq_false, if_false, if_pos hmax]
  have hidx : pyDiv (pySub K a.min) a.size = (i : ℚ) + 1 / 2 := by
    rw [pyDiv_eq, pySub_eq, hK]
    field_simp
    ring
  rw [hidx]
  have hpa : pyAdd ((i : ℚ) + 1 / 2) a.epsilon = (i : ℚ) + 1 / 2 + a.epsilon := pyAdd_eq _ _
  rw [hpa]
  have hle : (i : ℚ) ≤ (i : ℚ) + 1 / 2 + a.epsilon := by linarith
  have hlt2 : (i : ℚ) + 1 / 2 + a.epsilon < (i : ℚ) + 1 := by linarith
  rw [pyInt_eq_of h0 hle hlt2]

/-- C2: the claim states that for every validly constructed axis and every
key `k` with `min ≤ k ≤ max`, `get_index(k)` returns an integer in
`[0, n_bins)`.  The code violates this: on the validly constructed axis
`GridAxis("x", 0, 1, 0.3)` (default epsilon `1e-6`), the in-range key
`0.99` yields `int(0.99 / 0.3 + 1e-6) = int(3.300001) = 3 = n_bins`, which
is outside `[0, n_bins) = [0, 3)`.  This theorem evaluates the embedded
code at that failing input. -/
theorem c2_get_index_out_of_range :
    axX3.Valid ∧ axX3.n_bins = 3 ∧
    axX3.min ≤ Rat.divInt 99 100 ∧ Rat.divInt 99 100 ≤ axX3.max ∧
    axX3.get_index (Rat.divInt 99 100) = .ok 3 := by decide

/-- C3 counterexample: `GridAxis("x", 0, 1, 0.5, epsilon=0.6)` is validly
constructed (`__post_init__` only requires `epsilon > 0`), yet
`get_key(0) = 0.25` and `get_index(0.25) = int(0.5 + 0.6) = 1 ≠ 0`, so
`get_index(get_key(i)) == i` fails at `i = 0`. -/
theorem c3_counterexample :
    axBigEps.Valid ∧ axBigEps.get_key 0 = .ok (Rat.divInt 1 4) ∧
    axBigEps.get_index (Rat.divInt 1 4) = .ok 1 := by decide

/-- C3 (amended): for every validly constructed axis whose epsilon is less
than half a bin (in particular the default `1e-6`), and every index `i` with
`0 ≤ i < n_bins`, `get_key(i)` returns the bin center and `get_index` maps
that center back to the same bin: `get_index(get_key(i)) = i`. -/
theorem c3_get_index_get_key (a : GridAxis) (hv : a.Valid)
    (heps : a.epsilon < Rat.divInt 1 2) (i : ℤ) (h0 : 0 ≤ i) (hn : i < a.n_bins) :
    ∃ k, a.get_key i = .ok k ∧ a.get_index k = .ok i := by
  obtain ⟨k, hk, -, -, hi⟩ := axis_roundtrip hv heps h0 hn
  exact ⟨k, hk, hi⟩

/-- C3 witness: the amended claim applied to the axis `(0, 1, 0.1)` with
default epsilon at index `3`. -/
theorem c3_get_index_get_key_witness :
    axTen.Valid ∧ axTen.epsilon < Rat.divInt 1 2 ∧ (0 : ℤ) ≤ 3 ∧ 3 < axTen.n_bins ∧
    ∃ k, axTen.get_key 3 = .ok k ∧ axTen.get_index k = .ok 3 :=
  ⟨by decide, by decide, by decide, by decide,
    c3_get_index_get_key axTen (by decide) (by decide) 3 (by decide) (by decide)⟩

/-- C4: the claim states that for every in-range coordinate pair, a write
stores the value (or zero) and adjusts the nonzero set, and a read returns
it.  The code violates this at in-range coordinates whose axis index
overflows (the C2 bug): on the 3x3 grid over axes `(0, 1, 0.3)` with the
default threshold, `write((0.99, 0.15), 0.5)` resolves to index `(0, 3)`,
inserts `(0, 3)` into the nonzero set, and then raises an out-of-bounds
`IndexError` from the array write instead of storing the value — the write
fails and the nonzero set is left holding an out-of-range index pair.  This
theorem evaluates the embedded code at that failing input. -/
theorem c4_write_raises_at_in_range_key :
    axX3.min ≤ Rat.divInt 99 100 ∧ Rat.divInt 99 100 ≤ axX3.max ∧
    axY3.min ≤ Rat.divInt 15 100 ∧ Rat.divInt 15 100 ≤ axY3.max ∧
    g3.1.zero_threshold ≤ Rat.divInt 1 2 ∧
    w3.2 = some (.indexError "index is out of bounds") ∧
    ((0 : ℤ), (3 : ℤ)) ∈ w3.1.nz g3.1.nzRef ∧
    g3.1.cols = 3 ∧
    errOf (g3.1.getItem w3.1 (Rat.divInt 99 100, Rat.divInt 15 100))
      = some (.indexError "index is out of bounds") := by decide

/-- C8 counterexample: the claim says a non-axis argument produces a
`TypeError`, but `Grid.__init__` calls `x_axis.copy()` before its
`isinstance` check, so a non-axis object without a `copy` attribute (for
example `None` or an `int`) raises `AttributeError` instead. -/
theorem c8_counterexample :
    errOf (gridInit store0 .plain (.axis axB) (Rat.divInt 1 100000))
      = some (.attributeError "object has no attribute copy") ∧
    isTypeError (gridInit store0 .plain (.axis axB) (Rat.divInt 1 100000)) = false := by
  decide

/-- C8 (amended): constructing a Grid fails with an attribute error when
either axis argument lacks a `copy` method; with a type error when both
arguments support `copy` but either copy result is not an axis instance;
with a value error when both are axes but their names are identical; and
with a value error when the axes are valid with distinct names but the zero
threshold is negative.  In each failure case no Grid is produced (the
constructor returns only the error). -/
theorem c8_construction_errors :
    (∀ (σ : Store) (yArg : PyArg) (thr : ℚ),
      gridInit σ .plain yArg thr = .error (.attributeError "object has no attribute copy"))
    ∧ (∀ (σ : Store) (a : GridAxis) (thr : ℚ), a.Valid →
      gridInit σ (.axis a) .plain thr
        = .error (.attributeError "object has no attribute copy"))
    ∧ (∀ (σ : Store) (xArg yArg : PyArg) (thr : ℚ) (xc yc : PyArg),
      xArg.copyRes = .ok xc → yArg.copyRes = .ok yc →
      (xc.isAxis = false ∨ yc.isAxis = false) →
      gridInit σ xArg yArg thr = .error (.typeError "axis0 and axis1 must be type AxisSpecs."))
    ∧ (∀ (σ : Store) (a b : GridAxis) (thr : ℚ), a.Valid → b.Valid → a.name = b.name →
      gridInit σ (.axis a) (.axis b) thr = .error (.valueError "axis0.name == axis1.name!"))
    ∧ (∀ (σ : Store) (a b : GridAxis) (thr : ℚ), a.Valid → b.Valid → a.name ≠ b.name →
      thr < 0 →
      gridInit σ (.axis a) (.axis b) thr
        = .error (.valueError "zero threshold must be at least zero.")) := by
  have hmk : ∀ a : GridAxis, a.Valid →
      a.copy = .ok ⟨a.name, a.min, a.max, a.size, defaultEpsilon⟩ :=
    fun _ hv => axis_copy_ok hv
  refine ⟨?_, ?_, ?_, ?_, ?_⟩
  · intro σ yArg thr
    rfl
  · intro σ a thr hv
    rw [gridInit]
    simp only [PyArg.copyRes, hmk a hv, exmap_ok, exbind_ok]
    rfl
  · intro σ xArg yArg thr xc yc hx hy hna
    rw [gridInit, hx, hy]
    simp only [exbind_ok]
    cases xc <;> cases yc <;> simp_all [PyArg.isAxis]
  · intro σ a b thr hva hvb hname
    rw [gridInit]
    simp only [PyArg.copyRes, hmk a hva, hmk b hvb, exmap_ok, exbind_ok]
    simp [gridInitAxes, hname]
  · intro σ a b thr hva hvb hname hthr
    rw [gridInit]
    simp only [PyArg.copyRes, hmk a hva, hmk b hvb, exmap_ok, exbind_ok]
    simp [gridInitAxes, hname, hthr]

/-- C8 witness: each failure mode of the amended claim at a concrete
input: `Grid(None, axB)`, `Grid(axA, None)`, `Grid([1], axB)` (a non-axis
with a `copy` method), `Grid(axA, axA2)` with equal names, and
`Grid(axA, axB, -0.1)`. -/
theorem c8_construction_errors_witness :
    (gridInit store0 .plain (.axis axB) 0
      = .error (.attributeError "object has no attribute copy"))
    ∧ (axA.Valid ∧ gridInit store0 (.axis axA) .plain 0
      = .error (.attributeError "object has no attribute copy"))
    ∧ ((PyArg.withCopy .plain).copyRes = .ok .plain ∧ (PyArg.axis axB).copyRes
        = .ok (.axis ⟨"y", 0, 1, Rat.divInt 1 2, defaultEpsilon⟩) ∧
      PyArg.isAxis .plain = false ∧
      gridInit store0 (.withCopy .plain) (.axis axB) 0
        = .error (.typeError "axis0 and axis1 must be type AxisSpecs."))
    ∧ (axA.Valid ∧ axBigEps.Valid ∧ axA.name = axBigEps.name ∧
      gridInit store0 (.axis axA) (.axis axBigEps) 0
        = .error (.valueError "axis0.name == axis1.name!"))
    ∧ (axA.Valid ∧ axB.Valid ∧ axA.name ≠ axB.name ∧ (Rat.divInt (-1) 10 : ℚ) < 0 ∧
      gridInit store0 (.axis axA) (.axis axB) (Rat.divInt (-1) 10)
        = .error (.valueError "zero threshold must be at least zero.")) :=
  ⟨c8_construction_errors.1 store0 (.axis axB) 0,
   ⟨by decide, c8_construction_errors.2.1 store0 axA 0 (by decide)⟩,
   ⟨by decide, by decide, by decide,
    c8_construction_errors.2.2.1 store0 (.withCopy .plain) (.axis axB) 0 .plain
      (.axis ⟨"y", 0, 1, Rat.divInt 1 2, defaultEpsilon⟩) (by decide) (by decide)
      (Or.inl (by decide))⟩,
   ⟨by decide, by decide, by decide,
    c8_construction_errors.2.2.2.1 store0 axA axBigEps 0 (by decide) (by decide) (by decide)⟩,
   ⟨by decide, by decide, by decide, by decide,
    c8_construction_errors.2.2.2.2 store0 axA axB (Rat.divInt (-1) 10) (by decide) (by decide)
      (by decide) (by decide)⟩⟩

/-- C10: a Grid's internally stored axes always carry the default epsilon
`1e-6`, whatever the epsilon of the caller-supplied axes, because
construction copies each axis and axis copy rebuilds it with the dataclass
default; consequently replacing the caller-supplied epsilons by any other
values leaves the entire construction result — and hence every read, write
or key-to-index conversion performed through the grid — unchanged. -/
theorem c10_epsilon_reset :
    (∀ (σ : Store) (x y : GridAxis) (thr : ℚ) (g : GridObj) (σ' : Store),
      gridInit σ (.axis x) (.axis y) thr = .ok (g, σ') →
      g.x_axis.epsilon = defaultEpsilon ∧ g.y_axis.epsilon = defaultEpsilon)
    ∧ ∀ (σ : Store) (x y : GridAxis) (thr e1 e2 : ℚ),
      gridInit σ (.axis { x with epsilon := e1 }) (.axis { y with epsilon := e2 }) thr
        = gridInit σ (.axis x) (.axis y) thr := by
  constructor
  · intro σ x y thr g σ' h
    obtain ⟨hg, -, -, -, -, -⟩ := gridInit_ok_inv h
    subst hg
    exact ⟨rfl, rfl⟩
  · intro σ x y thr e1 e2
    rfl

/-- C10 witness: constructing on axes carrying epsilon `0.6` produces
internal axes with the default epsilon, and the same grid as with any other
caller epsilon. -/
theorem c10_epsilon_reset_witness :
    (gridOf (gridInit store0 (.axis axBigEps) (.axis axY3) 0)).1.x_axis.epsilon
        = defaultEpsilon ∧
    (gridOf (gridInit store0 (.axis axBigEps) (.axis axY3) 0)).1.y_axis.epsilon
        = defaultEpsilon ∧
    gridInit store0 (.axis { axA with epsilon := 7 }) (.axis { axB with epsilon := 9 }) 0
      = gridInit store0 (.axis axA) (.axis axB) 0 := by
  refine ⟨?_, ?_, c10_epsilon_reset.2 store0 axA axB 0 7 9⟩
  · have h := (c10_epsilon_reset.1 store0 axBigEps axY3 0
      (gridOf (gridInit store0 (.axis axBigEps) (.axis axY3) 0)).1
      (gridOf (gridInit store0 (.axis axBigEps) (.axis axY3) 0)).2 rfl).1
    exact h
  · have h := (c10_epsilon_reset.1 store0 axBigEps axY3 0
      (gridOf (gridInit store0 (.axis axBigEps) (.axis axY3) 0)).1
      (gridOf (gridInit store0 (.axis axBigEps) (.axis axY3) 0)).2 rfl).2
    exact h

theorem axisEq_refl (a : GridAxis) : axisEq a a = true := by
  simp [axisEq]

theorem allcloseB_self (rows cols : ℕ) (a : ℕ → ℕ → ℚ) :
    allcloseB rows cols a a = true := by
  rw [allcloseB, List.all_eq_true]
  intro r hr
  rw [List.all_eq_true]
  intro c hc
  apply decide_eq_true
  rw [pyAbs_eq, pySub_eq, sub_self, abs_zero, pyAdd_eq, pyMul_eq, pyAbs_eq,
    Rat.divInt_eq_div, Rat.divInt_eq_div]
  positivity

/-- C9: Grid equality is true exactly when the axes are equal, the
thresholds are equal, the array contents are numerically close
(`np.allclose`) and the significant-digit counts match; the final conjunct
of the source compares a grid's nonzero set with itself, so the operands'
nonzero sets are never compared and two grids that differ only in their
nonzero sets compare equal. -/
theorem c9_grid_eq_semantics :
    (∀ (σ : Store) (g o : GridObj),
      gridEqB σ g o = true ↔
        (axisEq g.x_axis o.x_axis = true ∧ axisEq g.y_axis o.y_axis = true ∧
         g.zero_threshold = o.zero_threshold ∧
         allcloseB g.rows g.cols (σ.arr g.dataRef) (σ.arr o.dataRef) = true ∧
         g.sig_digits = o.sig_digits))
    ∧ ∀ (σ : Store) (g o : GridObj),
      g.x_axis = o.x_axis → g.y_axis = o.y_axis →
      g.zero_threshold = o.zero_threshold → g.sig_digits = o.sig_digits →
      σ.arr g.dataRef = σ.arr o.dataRef →
      gridEqB σ g o = true := by
  constructor
  · intro σ g o
    simp [gridEqB, Bool.and_eq_true, decide_eq_true_eq, and_assoc]
  · intro σ g o hx hy hthr hsig harr
    simp [gridEqB, hx, hy, hthr, hsig, ← harr, axisEq_refl, allcloseB_self]

/-- C9 witness: two concrete grids that differ only in their nonzero sets
(empty versus `{(0,0)}`) compare equal. -/
theorem c9_grid_eq_semantics_witness :
    c9g1.x_axis = c9g2.x_axis ∧ c9g1.y_axis = c9g2.y_axis ∧
    c9g1.zero_threshold = c9g2.zero_threshold ∧ c9g1.sig_digits = c9g2.sig_digits ∧
    c9Store.arr c9g1.dataRef = c9Store.arr c9g2.dataRef ∧
    c9Store.nz c9g1.nzRef ≠ c9Store.nz c9g2.nzRef ∧
    gridEqB c9Store c9g1 c9g2 = true :=
  ⟨rfl, rfl, rfl, rfl, rfl, by decide,
    c9_grid_eq_semantics.2 c9Store c9g1 c9g2 rfl rfl rfl rfl rfl⟩

/-- C6: setting a noise matrix validates squareness and a total of exactly
1; an invalid matrix raises `ValueError` naming the noise model, and since
the error is raised before any assignment the previously stored matrix is
untouched (the operation produces no new state); a valid matrix is stored
as a private copy at a fresh reference, so a later mutation of any other
reference — in particular the caller's array — leaves the stored matrix
unchanged. -/
theorem c6_noise_validation :
    (∀ m : Mat, is_valid_noise m = true ↔ (m.rows = m.cols ∧ m.total = 1))
    ∧ (∀ (σ : Store) (f : FilterObj) (m : Mat), is_valid_noise m = false →
        setMotionNoise σ f (some m)
          = .error (.valueError "motion noise must be a square matrix that sums to 1.") ∧
        setObservationNoise σ f (some m)
          = .error (.valueError "observation noise must be a square matrix that sums to 1."))
    ∧ ∀ (σ : Store) (f : FilterObj) (m : Mat), is_valid_noise m = true →
        setMotionNoise σ f (some m)
          = .ok ({ f with motionRef := some σ.next },
              { σ with mats := Function.update σ.mats σ.next m, next := σ.next + 1 }) ∧
        setObservationNoise σ f (some m)
          = .ok ({ f with observRef := some σ.next },
              { σ with mats := Function.update σ.mats σ.next m, next := σ.next + 1 }) ∧
        ∀ (r : ℕ) (m' : Mat), r ≠ σ.next →
          (storeSetMat
            { σ with mats := Function.update σ.mats σ.next m, next := σ.next + 1 }
            r m').mats σ.next = m := by
  refine ⟨?_, ?_, ?_⟩
  · intro m
    simp [is_valid_noise, Bool.and_eq_true, decide_eq_true_eq]
  · intro σ f m h
    constructor
    · rw [setMotionNoise]
      simp [h]
    · rw [setObservationNoise]
      simp [h]
  · intro σ f m h
    refine ⟨?_, ?_, ?_⟩
    · rw [setMotionNoise]
      simp [h]
    · rw [setObservationNoise]
      simp [h]
    · intro r m' hr
      rw [storeSetMat]
      simp only [Function.update_noteq (Ne.symm hr)]
      exact Function.update_same _ _ _

/-- C6 witness: the non-square matrix `badMat` and the square matrix
`offMat` summing to `1.002` are rejected by both setters, and the valid
matrix `goodMat` is stored at a fresh reference that later external
mutation of another reference cannot touch. -/
theorem c6_noise_validation_witness :
    (is_valid_noise badMat = false ∧
      setMotionNoise fA.2 fA.1 (some badMat)
        = .error (.valueError "motion noise must be a square matrix that sums to 1.") ∧
      setObservationNoise fA.2 fA.1 (some badMat)
        = .error (.valueError "observation noise must be a square matrix that sums to 1."))
    ∧ (is_valid_noise offMat = false ∧
      setMotionNoise fA.2 fA.1 (some offMat)
        = .error (.valueError "motion noise must be a square matrix that sums to 1."))
    ∧ (is_valid_noise goodMat = true ∧
      setMotionNoise fA.2 fA.1 (some goodMat)
        = .ok ({ fA.1 with motionRef := some fA.2.next },
            { fA.2 with mats := Function.update fA.2.mats fA.2.next goodMat, next := fA.2.next + 1 }) ∧
      (3 : ℕ) ≠ fA.2.next ∧
      (storeSetMat
        { fA.2 with mats := Function.update fA.2.mats fA.2.next goodMat, next := fA.2.next + 1 }
        3 offMat).mats fA.2.next = goodMat) :=
  ⟨⟨by decide, (c6_noise_validation.2.1 fA.2 fA.1 badMat (by decide)).1,
    (c6_noise_validation.2.1 fA.2 fA.1 badMat (by decide)).2⟩,
   ⟨by decide, (c6_noise_validation.2.1 fA.2 fA.1 offMat (by decide)).1⟩,
   ⟨by decide, (c6_noise_validation.2.2 fA.2 fA.1 goodMat (by decide)).1,
    by decide,
    (c6_noise_validation.2.2 fA.2 fA.1 goodMat (by decide)).2.2 3 offMat (by decide)⟩⟩

theorem setItem_arr_frame (σ : Store) (g : GridObj) (key : ℚ × ℚ) (v : ℚ)
    {r : ℕ} (hr : r ≠ g.dataRef) : ((g.setItem σ key v).1).arr r = σ.arr r := by
  rw [GridObj.setItem]
  rcases g.getGridIndex key with e | idx
  · rfl
  · dsimp only
    split
    · dsimp only
      rw [Function.update_noteq hr]
      split <;> rfl
    · split <;> rfl

theorem setItem_nz_frame (σ : Store) (g : GridObj) (key : ℚ × ℚ) (v : ℚ)
    {s : ℕ} (hs : s ≠ g.nzRef) : ((g.setItem σ key v).1).nz s = σ.nz s := by
  rw [GridObj.setItem]
  rcases g.getGridIndex key with e | idx
  · rfl
  · dsimp only
    split
    · dsimp only
      split <;> exact Function.update_noteq hs _ _
    · dsimp only
      split <;> exact Function.update_noteq hs _ _

/-- C7: `copy()` on a grid returns (without raising) a grid equal to the
original — equal per grid equality, with identical array contents and an
identical nonzero set, the original's content untouched — and independent:
the copy lives at fresh references, so any write to the copy leaves every
array cell and the nonzero set of the original unchanged, and any write to
the original leaves the copy's unchanged. -/
theorem c7_copy_equal_independent (σ : Store) (g : GridObj)
    (hvx : g.x_axis.Valid) (hvy : g.y_axis.Valid)
    (hname : g.x_axis.name ≠ g.y_axis.name) (hthr : 0 ≤ g.zero_threshold)
    (hd : g.dataRef < σ.next) (hn : g.nzRef < σ.next) :
    ∃ gc σ', g.copy σ = .ok (gc, σ') ∧
      gridEqB σ' g gc = true ∧
      σ'.arr gc.dataRef = σ.arr g.dataRef ∧
      σ'.nz gc.nzRef = σ.nz g.nzRef ∧
      σ'.arr g.dataRef = σ.arr g.dataRef ∧
      σ'.nz g.nzRef = σ.nz g.nzRef ∧
      (∀ (key : ℚ × ℚ) (v : ℚ),
        ((gc.setItem σ' key v).1).arr g.dataRef = σ'.arr g.dataRef ∧
        ((gc.setItem σ' key v).1).nz g.nzRef = σ'.nz g.nzRef) ∧
      (∀ (key : ℚ × ℚ) (v : ℚ),
        ((g.setItem σ' key v).1).arr gc.dataRef = σ'.arr gc.dataRef ∧
        ((g.setItem σ' key v).1).nz gc.nzRef = σ'.nz gc.nzRef) := by
  have hdne : g.dataRef ≠ σ.next := ne_of_lt hd
  have hnne : g.nzRef ≠ σ.next + 1 := by omega
  have hstep := gridInit_ok σ g.zero_threshold hvx hvy hname hthr
  have hcopy : g.copy σ = .ok
      (⟨⟨g.x_axis.name, g.x_axis.min, g.x_axis.max, g.x_axis.size, defaultEpsilon⟩,
        ⟨g.y_axis.name, g.y_axis.min, g.y_axis.max, g.y_axis.size, defaultEpsilon⟩,
        g.zero_threshold, g.sig_digits, σ.next, σ.next + 1⟩,
       { arr := Function.update (Function.update σ.arr σ.next fun _ _ => 0) σ.next
           (σ.arr g.dataRef),
         nz := Function.update (Function.update σ.nz (σ.next + 1) ∅) (σ.next + 1)
           (σ.nz g.nzRef),
         mats := σ.mats,
         next := σ.next + 2 }) := by
    rw [GridObj.copy, hstep, exbind_ok]
    rfl
  refine ⟨_, _, hcopy, ?_, ?_, ?_, ?_, ?_, ?_, ?_⟩
  · rw [gridEqB]
    have harrg : (Function.update (Function.update σ.arr σ.next fun _ _ => 0) σ.next
        (σ.arr g.dataRef)) g.dataRef = σ.arr g.dataRef := by
      rw [Function.update_noteq hdne, Function.update_noteq hdne]
    have harrc : (Function.update (Function.update σ.arr σ.next fun _ _ => 0) σ.next
        (σ.arr g.dataRef)) σ.next = σ.arr g.dataRef := Function.update_same _ _ _
    simp only [harrg, harrc]
    simp [axisEq, allcloseB_self]
  · exact Function.update_same _ _ _
  · exact Function.update_same _ _ _
  · dsimp only
    rw [Function.update_noteq hdne, Function.update_noteq hdne]
  · dsimp only
    rw [Function.update_noteq hnne, Function.update_noteq hnne]
  · intro key v
    exact ⟨setItem_arr_frame _ _ key v hdne, setItem_nz_frame _ _ key v hnne⟩
  · intro key v
    constructor
    · exact setItem_arr_frame _ _ key v (Ne.symm hdne)
    · exact setItem_nz_frame _ _ key v (Ne.symm hnne)

/-- C7 witness: the claim applied to the 2x2 grid `gA` after the write
`grid[(0.25, 0.75)] = 0.5`. -/
theorem c7_copy_equal_independent_witness :
    gA.1.x_axis.Valid ∧ gA.1.y_axis.Valid ∧
    gA.1.x_axis.name ≠ gA.1.y_axis.name ∧ (0 : ℚ) ≤ gA.1.zero_threshold ∧
    gA.1.dataRef < (gA.1.setItem gA.2 (Rat.divInt 1 4, Rat.divInt 3 4) (Rat.divInt 1 2)).1.next ∧
    gA.1.nzRef < (gA.1.setItem gA.2 (Rat.divInt 1 4, Rat.divInt 3 4) (Rat.divInt 1 2)).1.next ∧
    ∃ gc σ', gA.1.copy (gA.1.setItem gA.2 (Rat.divInt 1 4, Rat.divInt 3 4) (Rat.divInt 1 2)).1
        = .ok (gc, σ') ∧
      gridEqB σ' gA.1 gc = true ∧
      σ'.arr gc.dataRef
        = (gA.1.setItem gA.2 (Rat.divInt 1 4, Rat.divInt 3 4) (Rat.divInt 1 2)).1.arr gA.1.dataRef ∧
      σ'.nz gc.nzRef
        = (gA.1.setItem gA.2 (Rat.divInt 1 4, Rat.divInt 3 4) (Rat.divInt 1 2)).1.nz gA.1.nzRef ∧
      σ'.arr gA.1.dataRef
        = (gA.1.setItem gA.2 (Rat.divInt 1 4, Rat.divInt 3 4) (Rat.divInt 1 2)).1.arr gA.1.dataRef ∧
      σ'.nz gA.1.nzRef
        = (gA.1.setItem gA.2 (Rat.divInt 1 4, Rat.divInt 3 4) (Rat.divInt 1 2)).1.nz gA.1.nzRef ∧
      (∀ (key : ℚ × ℚ) (v : ℚ),
        ((gc.setItem σ' key v).1).arr gA.1.dataRef = σ'.arr gA.1.dataRef ∧
        ((gc.setItem σ' key v).1).nz gA.1.nzRef = σ'.nz gA.1.nzRef) ∧
      (∀ (key : ℚ × ℚ) (v : ℚ),
        ((gA.1.setItem σ' key v).1).arr gc.dataRef = σ'.arr gc.dataRef ∧
        ((gA.1.setItem σ' key v).1).nz gc.nzRef = σ'.nz gc.nzRef) :=
  ⟨by decide, by decide, by decide, by decide, by decide, by decide,
    c7_copy_equal_independent
      (gA.1.setItem gA.2 (Rat.divInt 1 4, Rat.divInt 3 4) (Rat.divInt 1 2)).1 gA.1
      (by decide) (by decide) (by decide) (by decide) (by decide) (by decide)⟩

theorem pyInt_eq_ceil {q : ℚ} (h : q ≤ 0) : pyInt q = ⌈q⌉ := by
  have hneg : pyInt q = -pyInt (-q) := by
    rw [pyInt, pyInt, Rat.neg_num, Rat.neg_den, Int.neg_tdiv, neg_neg]
  rw [hneg, pyInt_eq_floor (neg_nonneg.mpr h), ← Int.ceil_neg, neg_neg]

theorem pyInt_nonneg_of {q : ℚ} (h : -1 < q) : 0 ≤ pyInt q := by
  rcases le_or_lt 0 q with h0 | h0
  · rw [pyInt_eq_floor h0]
    exact Int.floor_nonneg.mpr h0
  · rw [pyInt_eq_ceil h0.le]
    have hc : (-1 : ℤ) < ⌈q⌉ := by
      rw [Int.lt_ceil]
      exact_mod_cast h
    omega

theorem get_index_nonneg {a : GridAxis} (hv : a.Valid) {k : ℚ} {i : ℤ}
    (h : a.get_index k = .ok i) : 0 ≤ i := by
  rw [GridAxis.get_index] at h
  rcases hvk : a.is_valid_key k with _ | _
  · rw [hvk] at h
    simp at h
  · rw [hvk] at h
    simp only [Bool.true_eq_false, not_true_eq_false, if_false] at h
    have hk : a.min ≤ k ∧ k ≤ a.max := by
      rw [GridAxis.is_valid_key] at hvk
      exact of_decide_eq_true hvk
    have heps : 0 < a.epsilon := hv.2.2.2
    have hi : i = pyInt (pyAdd (if k < a.max then pyDiv (pySub k a.min) a.size
        else pySub (a.n_bins : ℚ) 1) a.epsilon) := (Except.ok.inj h).symm
    rw [hi]
    apply pyInt_nonneg_of
    rw [pyAdd_eq]
    split
    · rw [pyDiv_eq, pySub_eq]
      have hnum : 0 ≤ (k - a.min) / a.size :=
        div_nonneg (sub_nonneg.mpr hk.1) hv.2.2.1.le
      linarith
    · rw [pySub_eq]
      have hnb : (0 : ℚ) ≤ (a.n_bins : ℚ) := by exact_mod_cast n_bins_nonneg hv
      linarith

theorem getGridIndex_ok_inv {g : GridObj} {key : ℚ × ℚ} {idx : ℤ × ℤ}
    (h : g.getGridIndex key = .ok idx) :
    g.x_axis.get_index key.1 = .ok idx.2 ∧ g.y_axis.get_index key.2 = .ok idx.1 := by
  rw [GridObj.getGridIndex] at h
  rcases hx : g.x_axis.get_index key.1 with e | xi
  · rw [hx, exbind_error] at h
    exact Except.noConfusion h
  rw [hx, exbind_ok] at h
  rcases hy : g.y_axis.get_index key.2 with e | yi
  · rw [hy, exbind_error] at h
    exact Except.noConfusion h
  rw [hy, exbind_ok] at h
  have hidx : (yi, xi) = idx := Except.ok.inj h
  subst hidx
  exact ⟨rfl, rfl⟩

theorem npResolve_some_of_nonneg {dim : ℕ} {i : ℤ} {r : ℕ} (h0 : 0 ≤ i)
    (h : npResolve dim i = some r) : r = i.toNat ∧ i < (dim : ℤ) := by
  rw [npResolve] at h
  split_ifs at h with h1 h2
  · exact ⟨(Option.some.inj h).symm, h1.2⟩
  · exact absurd h2.2 (not_lt.mpr h0)

/-- A successful `write` preserves the nonzero-set invariant (requires a
strictly positive zero threshold). -/
theorem setItem_preserves_inv {σ : Store} {g : GridObj}
    (hvx : g.x_axis.Valid) (hvy : g.y_axis.Valid) (hthr : 0 < g.zero_threshold)
    (hinv : GridInv σ g) (key : ℚ × ℚ) (v : ℚ)
    (hok : (g.setItem σ key v).2 = none) : GridInv (g.setItem σ key v).1 g := by
  rcases hgi : g.getGridIndex key with e | idx
  · rw [GridObj.setItem, hgi] at hok
    simp at hok
  obtain ⟨hxi, hyi⟩ := getGridIndex_ok_inv hgi
  have h1 : 0 ≤ idx.1 := get_index_nonneg hvy hyi
  have h2 : 0 ≤ idx.2 := get_index_nonneg hvx hxi
  rw [GridObj.setItem, hgi] at hok ⊢
  dsimp only at hok ⊢
  rcases hr : npResolve g.rows idx.1 with _ | r
  · rw [hr] at hok
    simp at hok
  rcases hc : npResolve g.cols idx.2 with _ | c
  · rw [hr, hc] at hok
    simp at hok
  dsimp only
  obtain ⟨hrv, hrlt⟩ := npResolve_some_of_nonneg h1 hr
  obtain ⟨hcv, hclt⟩ := npResolve_some_of_nonneg h2 hc
  have hrlt' : idx.1.toNat < g.rows := by omega
  have hclt' : idx.2.toNat < g.cols := by omega
  by_cases hcase : g.zero_threshold ≤ v
  · simp only [if_pos hcase]
    constructor
    · intro r' hr' c' hc'
      simp only [Function.update_same]
      by_cases hpt : ((r' : ℤ), (c' : ℤ)) = idx
      · have hr'' : r' = idx.1.toNat := by
          have := congrArg Prod.fst hpt
          omega
        have hc'' : c' = idx.2.toNat := by
          have := congrArg Prod.snd hpt
          omega
        rw [hpt, setAt, if_pos ⟨hrv ▸ hr'', hcv ▸ hc''⟩]
        simp [Finset.mem_insert, hcase]
      · have hne : ¬ (r' = r ∧ c' = c) := by
          rintro ⟨rfl, rfl⟩
          exact hpt (by rw [hrv, hcv] at *; exact Prod.ext (by omega) (by omega))
        rw [setAt, if_neg hne]
        rw [Finset.mem_insert]
        have := (hinv.1 r' hr' c' hc')
        simp [hpt, this]
    · intro p hp
      simp only [Function.update_same] at hp
      rcases Finset.mem_insert.mp hp with rfl | hp'
      · exact ⟨h1, hrlt, h2, hclt⟩
      · exact hinv.2 p hp'
  · simp only [if_neg hcase]
    constructor
    · intro r' hr' c' hc'
      simp only [Function.update_same]
      by_cases hpt : ((r' : ℤ), (c' : ℤ)) = idx
      · have hr'' : r' = idx.1.toNat := by
          have := congrArg Prod.fst hpt
          omega
        have hc'' : c' = idx.2.toNat := by
          have := congrArg Prod.snd hpt
          omega
        rw [hpt, setAt, if_pos ⟨hrv ▸ hr'', hcv ▸ hc''⟩]
        simp [Finset.not_mem_erase, not_le.mpr hthr]
      · have hne : ¬ (r' = r ∧ c' = c) := by
          rintro ⟨rfl, rfl⟩
          exact hpt (by rw [hrv, hcv] at *; exact Prod.ext (by omega) (by omega))
        rw [setAt, if_neg hne]
        rw [Finset.mem_erase]
        have := (hinv.1 r' hr' c' hc')
        simp [hpt, this]
    · intro p hp
      simp only [Function.update_same] at hp
      exact hinv.2 p (Finset.mem_of_mem_erase hp)

/-- A sequence of successful writes preserves the invariant. -/
theorem applyWrites_inv {g : GridObj} (hvx : g.x_axis.Valid) (hvy : g.y_axis.Valid)
    (hthr : 0 < g.zero_threshold) :
    ∀ (ws : List ((ℚ × ℚ) × ℚ)) (σ σ₂ : Store), GridInv σ g →
      applyWrites σ g ws = (σ₂, true) → GridInv σ₂ g := by
  intro ws
  induction ws with
  | nil =>
    intro σ σ₂ hinv h
    rw [applyWrites] at h
    obtain ⟨h1, -⟩ := Prod.mk.inj h
    rwa [← h1]
  | cons w ws ih =>
    intro σ σ₂ hinv h
    rw [applyWrites] at h
    obtain ⟨h1, h2⟩ := Prod.mk.inj h
    rw [Bool.and_eq_true, Option.isNone_iff_eq_none] at h2
    exact ih (g.setItem σ w.1 w.2).1 σ₂
      (setItem_preserves_inv hvx hvy hthr hinv w.1 w.2 h2.1)
      (Prod.ext h1 h2.2)

/-- C1 counterexample: a Grid may be constructed with `zero_threshold = 0`
(construction only rejects negative thresholds).  On such a freshly
constructed grid every cell reads `0.0` and the nonzero set is empty, yet
every cell satisfies `data[row, col] >= zero_threshold`, so the nonzero set
is not the claimed set `{(row, col) | data[row, col] >= zero_threshold}`. -/
theorem c1_counterexample :
    c1Pair.1.zero_threshold = 0 ∧
    c1Pair.1.rows = 1 ∧ c1Pair.1.cols = 1 ∧
    c1Pair.2.arr c1Pair.1.dataRef 0 0 = 0 ∧
    c1Pair.2.nz c1Pair.1.nzRef = ∅ ∧
    ¬ (((0 : ℤ), (0 : ℤ)) ∈ c1Pair.2.nz c1Pair.1.nzRef ↔
        c1Pair.1.zero_threshold ≤ c1Pair.2.arr c1Pair.1.dataRef 0 0) ∧
    ¬ GridInv c1Pair.2 c1Pair.1 := by decide

/-- C1 (amended): for every freshly constructed Grid (any zero threshold
allowed by construction) every cell reads `0.0` and the nonzero set is
empty; and when the zero threshold is strictly positive, after any sequence
of writes that all complete without raising, the nonzero-cell set is
exactly the set of in-range index pairs `(row, col)` with
`data[row, col] >= zero_threshold` (and holds only in-range pairs). -/
theorem c1_nonzero_invariant :
    ∀ (σ₀ : Store) (x y : GridAxis) (thr : ℚ) (g : GridObj) (σ₁ : Store),
      gridInit σ₀ (.axis x) (.axis y) thr = .ok (g, σ₁) →
      ((∀ r c : ℕ, σ₁.arr g.dataRef r c = 0) ∧ σ₁.nz g.nzRef = ∅)
      ∧ (0 < thr →
          ∀ (ws : List ((ℚ × ℚ) × ℚ)) (σ₂ : Store),
            applyWrites σ₁ g ws = (σ₂, true) → GridInv σ₂ g) := by
  intro σ₀ x y thr g σ₁ h
  obtain ⟨hg, hσ, hvx, hvy, hname, hthr0⟩ := gridInit_ok_inv h
  subst hg
  subst hσ
  constructor
  · constructor
    · intro r c
      simp
    · simp
  · intro hthr ws σ₂ happ
    refine applyWrites_inv hvx hvy hthr ws _ σ₂ ⟨?_, ?_⟩ happ
    · intro r' hr' c' hc'
      simp [not_le.mpr hthr]
    · intro p hp
      simp at hp

/-- C1 witness: the 2x2 grid `gA` with threshold `0.01`, after a write of
`0.5` and an overwrite by the sub-threshold `0.001` at the same key. -/
theorem c1_nonzero_invariant_witness :
    (0 : ℚ) < Rat.divInt 1 100 ∧
    gridInit store0 (.axis axA) (.axis axB) (Rat.divInt 1 100) = .ok (gA.1, gA.2) ∧
    (applyWrites gA.2 gA.1 wSeq).2 = true ∧
    ((∀ r c : ℕ, gA.2.arr gA.1.dataRef r c = 0) ∧ gA.2.nz gA.1.nzRef = ∅) ∧
    GridInv (applyWrites gA.2 gA.1 wSeq).1 gA.1 :=
  ⟨by decide, rfl, by decide,
    (c1_nonzero_invariant store0 axA axB (Rat.divInt 1 100) gA.1 gA.2 rfl).1,
    (c1_nonzero_invariant store0 axA axB (Rat.divInt 1 100) gA.1 gA.2 rfl).2
      (by decide) wSeq _ (Prod.ext rfl (by decide))⟩

theorem mapM_ok_of {α β : Type} (l : List α) (f : α → Except PyErr β) (g : α → β)
    (h : ∀ x ∈ l, f x = .ok (g x)) : l.mapM f = .ok (l.map g) := by
  induction l with
  | nil => rfl
  | cons a l ih =>
    rw [List.mapM_cons, h a (List.mem_cons_self a l),
      ih fun x hx => h x (List.mem_cons_of_mem a hx)]
    rfl

theorem mapM_map_ok {α β γ : Type} (l : List α) (h : α → β) (f : β → Except PyErr γ)
    (g : α → γ) (hall : ∀ x ∈ l, f (h x) = .ok (g x)) :
    (l.map h).mapM f = .ok (l.map g) := by
  induction l with
  | nil => rfl
  | cons a l ih =>
    rw [List.map_cons, List.mapM_cons, hall a (List.mem_cons_self a l),
      ih fun x hx => hall x (List.mem_cons_of_mem a hx)]
    rfl

/-- Reading back a bin center: for an in-range cell of a grid whose axes
are valid with epsilon below half a bin, `get_cell_key` returns the cell's
center and `__getitem__` at that center returns the stored array value. -/
theorem cell_read (σ : Store) {g : GridObj}
    (hvx : g.x_axis.Valid) (hvy : g.y_axis.Valid)
    (hex : g.x_axis.epsilon < Rat.divInt 1 2) (hey : g.y_axis.epsilon < Rat.divInt 1 2)
    {p : ℤ × ℤ} (hp1 : 0 ≤ p.1) (hp1' : p.1 < g.y_axis.n_bins)
    (hp2 : 0 ≤ p.2) (hp2' : p.2 < g.x_axis.n_bins) :
    g.getCellKey p = .ok (g.cellCenter p) ∧
    g.getItem σ (g.cellCenter p) = .ok (σ.arr g.dataRef p.1.toNat p.2.toNat) := by
  obtain ⟨ky, hky, -, -, hiy⟩ := axis_roundtrip hvy hey hp1 hp1'
  obtain ⟨kx, hkx, -, -, hix⟩ := axis_roundtrip hvx hex hp2 hp2'
  have hkyc : ky = pyAdd (pyAdd (pyMul (p.1 : ℚ) g.y_axis.size) g.y_axis.min)
      g.y_axis.half_size := by
    rw [GridAxis.get_key] at hky
    split_ifs at hky
    exact (Except.ok.inj hky).symm
  have hkxc : kx = pyAdd (pyAdd (pyMul (p.2 : ℚ) g.x_axis.size) g.x_axis.min)
      g.x_axis.half_size := by
    rw [GridAxis.get_key] at hkx
    split_ifs at hkx
    exact (Except.ok.inj hkx).symm
  have hcenter : g.cellCenter p = (kx, ky) := by
    rw [GridObj.cellCenter, hkxc, hkyc]
  constructor
  · rw [GridObj.getCellKey, hky, exbind_ok, hkx, exbind_ok, hcenter]
    rfl
  · rw [GridObj.getItem, hcenter]
    have hgi : g.getGridIndex (kx, ky) = .ok (p.1, p.2) := by
      rw [GridObj.getGridIndex]
      dsimp only
      rw [hix, exbind_ok, hiy, exbind_ok]
      rfl
    rw [hgi, exbind_ok]
    have hrr : npResolve g.rows p.1 = some p.1.toNat := by
      rw [npResolve, if_pos]
      constructor
      · exact hp1
      · rw [GridObj.rows]
        omega
    have hcc : npResolve g.cols p.2 = some p.2.toNat := by
      rw [npResolve, if_pos]
      constructor
      · exact hp2
      · rw [GridObj.cols]
        omega
    dsimp only
    rw [hrr, hcc]
    rfl

/-- C5: `sample(n)` raises a runtime error when the belief's nonzero-key
set is empty; raises a runtime error when the stored values at the nonzero
keys do not sum to exactly 1; otherwise returns a sequence of exactly `n`
coordinate pairs, each drawn (with replacement, under any draw oracle
`pick`) from the nonzero coordinate keys.  Stated over well-formed filter
states: valid axes with epsilon below half a bin (the belief's axes always
carry the default `1e-6`), in-range nonzero cells and non-negative stored
weights — what reachable, uncorrupted filter states satisfy. -/
theorem c5_sample_spec (σ : Store) (f : FilterObj) (n : ℕ) (pick : ℕ → ℕ)
    (hvx : f.grid.x_axis.Valid) (hvy : f.grid.y_axis.Valid)
    (hex : f.grid.x_axis.epsilon < Rat.divInt 1 2)
    (hey : f.grid.y_axis.epsilon < Rat.divInt 1 2)
    (hbound : ∀ p ∈ σ.nz f.grid.nzRef,
      0 ≤ p.1 ∧ p.1 < f.grid.y_axis.n_bins ∧ 0 ≤ p.2 ∧ p.2 < f.grid.x_axis.n_bins)
    (hnonneg : ∀ p ∈ σ.nz f.grid.nzRef,
      0 ≤ σ.arr f.grid.dataRef p.1.toNat p.2.toNat) :
    (σ.nz f.grid.nzRef = ∅ →
      f.sample σ n pick = .error (.runtimeError "There are no cells with positive values!"))
    ∧ (σ.nz f.grid.nzRef ≠ ∅ → weightSum σ f.grid ≠ 1 →
      f.sample σ n pick
        = .error (.runtimeError "The probabilities for the nonzero keys do not sum to 1."))
    ∧ (σ.nz f.grid.nzRef ≠ ∅ → weightSum σ f.grid = 1 →
      ∃ l, f.sample σ n pick = .ok l ∧ l.length = n ∧
        ∀ x ∈ l, ∃ p ∈ σ.nz f.grid.nzRef, f.grid.getCellKey p = .ok x) := by
  have hcells : ∀ p ∈ f.grid.getNonzeroCells σ, p ∈ σ.nz f.grid.nzRef := by
    intro p hp
    exact mem_cellSort.mp hp
  have hkeys : f.grid.getNonzeroKeys σ
      = .ok ((f.grid.getNonzeroCells σ).map f.grid.cellCenter) := by
    rw [GridObj.getNonzeroKeys]
    refine mapM_ok_of _ _ _ fun p hp => ?_
    obtain ⟨h1, h2, h3, h4⟩ := hbound p (hcells p hp)
    exact (cell_read σ hvx hvy hex hey h1 h2 h3 h4).1
  have hprobs : ((f.grid.getNonzeroCells σ).map f.grid.cellCenter).mapM
        (f.grid.getItem σ)
      = .ok ((f.grid.getNonzeroCells σ).map
          fun p => σ.arr f.grid.dataRef p.1.toNat p.2.toNat) := by
    refine mapM_map_ok _ _ _ _ fun p hp => ?_
    obtain ⟨h1, h2, h3, h4⟩ := hbound p (hcells p hp)
    exact (cell_read σ hvx hvy hex hey h1 h2 h3 h4).2
  refine ⟨?_, ?_, ?_⟩
  · intro hempty
    have hcl : f.grid.getNonzeroCells σ = [] := by
      rw [GridObj.getNonzeroCells, hempty]
      rfl
    rw [FilterObj.sample, hkeys, exbind_ok, hcl]
    rfl
  · intro hne hsum
    have hlen : ((f.grid.getNonzeroCells σ).map f.grid.cellCenter).length ≠ 0 := by
      rw [List.length_map, GridObj.getNonzeroCells, length_cellSort]
      simpa [Finset.card_eq_zero] using hne
    rw [weightSum] at hsum
    rw [FilterObj.sample, hkeys, exbind_ok, if_neg hlen, hprobs, exbind_ok,
      if_pos hsum]
  · intro hne hsum
    have hlen : ((f.grid.getNonzeroCells σ).map f.grid.cellCenter).length ≠ 0 := by
      rw [List.length_map, GridObj.getNonzeroCells, length_cellSort]
      simpa [Finset.card_eq_zero] using hne
    rw [weightSum] at hsum
    rw [FilterObj.sample, hkeys, exbind_ok, if_neg hlen, hprobs, exbind_ok,
      if_neg (not_not_intro hsum)]
    have hno : (((f.grid.getNonzeroCells σ).map
        fun p => σ.arr f.grid.dataRef p.1.toNat p.2.toNat).any
          fun p => decide (p < 0)) = false := by
      rw [List.any_eq_false]
      intro q hq
      obtain ⟨p, hp, rfl⟩ := List.mem_map.mp hq
      simp only [decide_eq_true_eq]
      exact not_lt.mpr (hnonneg p (hcells p hp))
    rw [hno]
    simp only [Bool.false_eq_true, if_false]
    refine ⟨_, rfl, ?_, ?_⟩
    · rw [List.length_map, List.length_range]
    · intro x hx
      obtain ⟨i, -, hi⟩ := List.mem_map.mp hx
      set keys := (f.grid.getNonzeroCells σ).map f.grid.cellCenter with hkeysdef
      have hklen : 0 < keys.length := Nat.pos_of_ne_zero hlen
      have hidx : pick i % keys.length < keys.length := Nat.mod_lt _ hklen
      have hget : keys.getD (pick i % keys.length) (0, 0) ∈ keys := by
        rw [List.getD_eq_getElem keys (0, 0) hidx]
        exact List.getElem_mem hidx
      rw [hi] at hget
      obtain ⟨p, hp, hpc⟩ := List.mem_map.mp hget
      obtain ⟨h1, h2, h3, h4⟩ := hbound p (hcells p hp)
      refine ⟨p, hcells p hp, ?_⟩
      rw [(cell_read σ hvx hvy hex hey h1 h2 h3 h4).1, hpc]

/-- C5 witness: the filter `fA` after the writes `0.7` at `(0.05, 0.05)`
and `0.3` at `(0.2, 0.8)` (weights summing to `1`), sampled `3` times with
the identity draw oracle. -/
theorem c5_sample_spec_witness :
    fA.1.grid.x_axis.Valid ∧ fA.1.grid.y_axis.Valid ∧
    fA.1.grid.x_axis.epsilon < Rat.divInt 1 2 ∧
    fA.1.grid.y_axis.epsilon < Rat.divInt 1 2 ∧
    (∀ p ∈ fw2.1.nz fA.1.grid.nzRef,
      0 ≤ p.1 ∧ p.1 < fA.1.grid.y_axis.n_bins ∧
      0 ≤ p.2 ∧ p.2 < fA.1.grid.x_axis.n_bins) ∧
    (∀ p ∈ fw2.1.nz fA.1.grid.nzRef,
      0 ≤ fw2.1.arr fA.1.grid.dataRef p.1.toNat p.2.toNat) ∧
    fw2.1.nz fA.1.grid.nzRef ≠ ∅ ∧ weightSum fw2.1 fA.1.grid = 1 ∧
    ∃ l, fA.1.sample fw2.1 3 (fun i => i) = .ok l ∧ l.length = 3 ∧
      ∀ x ∈ l, ∃ p ∈ fw2.1.nz fA.1.grid.nzRef, fA.1.grid.getCellKey p = .ok x :=
  ⟨by decide, by decide, by decide, by decide, by decide, by decide, by decide, by decide,
    (c5_sample_spec fw2.1 fA.1 3 (fun i => i) (by decide) (by decide) (by decide)
      (by decide) (by decide) (by decide)).2.2 (by decide) (by decide)⟩

end PyBHF
